import Mathlib

/-
Verification of the pylibacl ACL object model (src/acl.c).

The C extension wraps an external POSIX.1e ACL backend (libacl).  The
wrapper code itself is translated here function by function; the backend
primitives (acl_valid, acl_to_text, acl_copy_ext, acl_copy_int,
acl_get_entry, acl_delete_entry, per-entry get/set primitives) are not
part of the repository and are modelled from the specification, each such
definition marked "Modelled from the spec".

The backend representation of an ACL handle is a list of records, each a
tag type, a numeric qualifier and a read/write/execute permission triple.
Python-level objects are structures; the CPython error indicator is an
explicit state.  Errors follow the spec taxonomy: TypeError/ValueError
stand for InvalidArgument, IOError (with errno) for BackendError,
AttributeError for UninitializedState.
-/

/-- Tag type of an ACL entry, the closed enumeration from 23.2.5 of
POSIX.1e (exported constants ACL_UNDEFINED_TAG, ACL_USER_OBJ, ACL_USER,
ACL_GROUP_OBJ, ACL_GROUP, ACL_MASK, ACL_OTHER). -/
inductive Tag where
  | undefined
  | userObj
  | user
  | groupObj
  | group
  | mask
  | other
deriving DecidableEq, Repr

/-- Numeric value of each tag constant, as exported by the module
(the Linux acl_tag_t values). -/
def tagCode : Tag → Int
  | .undefined => 0
  | .userObj => 1
  | .user => 2
  | .groupObj => 4
  | .group => 8
  | .mask => 16
  | .other => 32

/-- Inverse of tagCode: recognize an integer as a tag constant. -/
def tagOfCode (c : Int) : Option Tag :=
  if c = 0 then some .undefined
  else if c = 1 then some .userObj
  else if c = 2 then some .user
  else if c = 4 then some .groupObj
  else if c = 8 then some .group
  else if c = 16 then some .mask
  else if c = 32 then some .other
  else none

/-- One of the three permission bits (23.2.2 acl_perm_t values). -/
inductive Perm where
  | read
  | write
  | execute
deriving DecidableEq, Repr

/-- The read/write/execute permission triple of one entry. -/
structure Perms where
  read : Bool
  write : Bool
  execute : Bool
deriving DecidableEq, Repr

/-- Numeric encoding of a permission triple (ACL_READ = 4,
ACL_WRITE = 2, ACL_EXECUTE = 1). -/
def permCode (p : Perms) : Nat :=
  (if p.read then 4 else 0) + (if p.write then 2 else 0) +
    (if p.execute then 1 else 0)

/-- Inverse of permCode. -/
def permOfCode (n : Nat) : Option Perms :=
  if n < 8 then some ⟨n / 4 % 2 = 1, n / 2 % 2 = 1, n % 2 = 1⟩ else none

/-- Read one bit of a permission triple. -/
def Perms.getBit (p : Perms) : Perm → Bool
  | .read => p.read
  | .write => p.write
  | .execute => p.execute

/-- Write one bit of a permission triple. -/
def Perms.setBit (p : Perms) (q : Perm) (v : Bool) : Perms :=
  match q with
  | .read => { p with read := v }
  | .write => { p with write := v }
  | .execute => { p with execute := v }

/-- One backend ACL record: a tag type, a numeric qualifier (meaningful
for USER and GROUP tags) and the permission bits. -/
structure Record where
  tag : Tag
  qualifier : Nat
  perms : Perms
deriving DecidableEq, Repr

/-- A backend ACL handle (acl_t) is the ordered list of its records. -/
abbrev AclHandle := List Record

/-- In-place update of the record at one index of a handle, leaving the
rest unchanged; used to model mutation through entry and permset views. -/
def setAt : List Record → Nat → (Record → Record) → List Record
  | [], _, _ => []
  | r :: rs, 0, f => f r :: rs
  | r :: rs, n + 1, f => r :: setAt rs n f

/-- The errno value EINVAL, the single error code POSIX.1e documents for
the structural failures modelled here. -/
def EINVAL : Nat := 22

/- ===================== backend (libacl) model =====================
The backend library is outside the repository; these primitives are
modelled from the specification (section 1 lists the assumed backend
capabilities, section 4.4 the validity rules, section 4.2 the textual
rendering). -/

/-- Modelled from the spec: the backend's per-entry text rendering used
by serialize-to-text — one permission triple as the fixed-order
three-character r/w/x string. -/
def permText (p : Perms) : String :=
  (if p.read then "r" else "-") ++ (if p.write then "w" else "-") ++
    (if p.execute then "x" else "-")

/-- Modelled from the spec: one line of the canonical text rendering of
an entry, in the forms user::rwx, user:uid:rwx, group::rwx,
group:gid:rwx, mask::rwx, other::rwx.  An undefined tag has no rendering
and makes the backend call fail. -/
def entryText (r : Record) : Option String :=
  match r.tag with
  | .undefined => none
  | .userObj => some ("user::" ++ permText r.perms)
  | .user => some ("user:" ++ toString r.qualifier ++ ":" ++ permText r.perms)
  | .groupObj => some ("group::" ++ permText r.perms)
  | .group => some ("group:" ++ toString r.qualifier ++ ":" ++ permText r.perms)
  | .mask => some ("mask::" ++ permText r.perms)
  | .other => some ("other::" ++ permText r.perms)

/-- Modelled from the spec: the backend primitive serialize-to-text
(acl_to_text), missing from the repository — the canonical text
rendering of every entry, one line per entry, in handle order.  Returns
none (a NULL pointer in C) on rendering failure. -/
def acl_to_text (h : AclHandle) : Option String :=
  match h with
  | [] => some ""
  | r :: rs =>
    match entryText r, acl_to_text rs with
    | some l, some rest => some (l ++ "\n" ++ rest)
    | _, _ => none

/-- Number of entries carrying a given tag. -/
def countTag (h : AclHandle) (t : Tag) : Nat :=
  (h.filter (fun r => r.tag = t)).length

/-- True when the list of qualifiers has no duplicate. -/
def qualsUnique : List Nat → Bool
  | [] => true
  | q :: qs => (!qs.contains q) && qualsUnique qs

/-- Modelled from the spec: the backend validity primitive (acl_valid),
missing from the repository — the POSIX.1e structural rules of
section 4.4, also stated verbatim in the module's own documentation
string for the valid method: exactly one USER_OBJ, GROUP_OBJ and OTHER
entry; USER qualifiers unique among USER entries and GROUP qualifiers
unique among GROUP entries; exactly one MASK entry when any USER or
GROUP entry exists, at most one otherwise.  Returns only a single
success bit. -/
def acl_valid (h : AclHandle) : Bool :=
  countTag h .userObj = 1 && countTag h .groupObj = 1 &&
    countTag h .other = 1 &&
    qualsUnique ((h.filter (fun r => r.tag = .user)).map Record.qualifier) &&
    qualsUnique ((h.filter (fun r => r.tag = .group)).map Record.qualifier) &&
    (if countTag h .user + countTag h .group = 0 then
      countTag h .mask ≤ 1
    else countTag h .mask = 1)

/-- Modelled from the spec: the backend export-to-bytes primitive
(acl_size plus acl_copy_ext), missing from the repository — an opaque
flat buffer, three numbers per record. -/
def acl_copy_ext : AclHandle → List Nat
  | [] => []
  | r :: rs =>
    (tagCode r.tag).toNat :: r.qualifier :: permCode r.perms ::
      acl_copy_ext rs

/-- Modelled from the spec: the backend import-from-bytes primitive
(acl_copy_int), missing from the repository — decodes the opaque buffer
back into a handle, failing (NULL in C) on any malformed buffer. -/
def acl_copy_int (buf : List Nat) : Option AclHandle :=
  match buf with
  | [] => some []
  | t :: q :: p :: rest =>
    match tagOfCode (Int.ofNat t), permOfCode p, acl_copy_int rest with
    | some tg, some pm, some hs => some (⟨tg, q, pm⟩ :: hs)
    | _, _, _ => none
  | _ => none

/-- Modelled from the spec: releasing a live backend handle (acl_free)
succeeds; the wrapper code nevertheless checks its result, and those
checks are kept in the translations below. -/
def acl_free (_h : AclHandle) : Except Nat Unit := .ok ()

/-- The two values the wrapper stores in its entry_id field:
ACL_FIRST_ENTRY and ACL_NEXT_ENTRY. -/
inductive EntryId where
  | first
  | next
deriving DecidableEq, Repr

/-- Modelled from the spec: the backend enumeration primitive
(acl_get_entry), missing from the repository — enumerates entries first
to last; ACL_FIRST_ENTRY restarts from the first entry,
ACL_NEXT_ENTRY continues from the backend cursor.  Returns the index of
the yielded entry (or none when exhausted) together with the new backend
cursor position. -/
def acl_get_entry (h : AclHandle) (pos : Nat) (id : EntryId) :
    Option Nat × Nat :=
  let i := match id with | .first => 0 | .next => pos
  if i < h.length then (some i, i + 1) else (none, i)

/- ===================== Python object layer =====================
The CPython wrapper objects from src/acl.c.  An acl_entry_t held by an
Entry object is modelled as the index of the record inside its owning
ACL's handle; an acl_permset_t likewise (the permset of entry i is
record i's permission bits).  NULL pointers are Option.none. -/

/-- The Python exceptions the wrapper raises.  Per the spec taxonomy,
TypeError and ValueError stand for InvalidArgument, IOError (carrying
errno) for BackendError, AttributeError for UninitializedState. -/
inductive PyErr where
  | typeError (msg : String)
  | valueError (msg : String)
  | ioError (errno : Nat)
  | attributeError (msg : String)
deriving DecidableEq, Repr

/-- True exactly for the errors the spec calls InvalidArgument
(TypeError / ValueError). -/
def isInvalidArgument : PyErr → Bool
  | .typeError _ => true
  | .valueError _ => true
  | _ => false

/-- A Python value passed to a setter, as far as the wrapper inspects it
(PyInt_Check on integers; everything else is some other object). -/
inductive PyValue where
  | int (n : Int)
  | str (s : String)
  | pyNone
deriving DecidableEq, Repr

/-- The ACL_Object structure: the exclusively owned backend handle (NULL
when absent), the iteration field entry_id, and the backend cursor kept
inside the acl_t.  oid identifies the instance, so that entry views can
name their owner. -/
structure ACLObj where
  oid : Nat
  acl : Option AclHandle
  pos : Nat
  entry_id : EntryId
deriving DecidableEq, Repr

/-- A freshly loaded ACL object holding a given handle (entry_id starts
as ACL_FIRST_ENTRY, as in ACL_new). -/
def mkACL (oid : Nat) (h : AclHandle) : ACLObj :=
  ⟨oid, some h, 0, .first⟩

/-- The Entry_Object structure: the strong reference to the parent ACL
(here the owner's oid) and the acl_entry_t (here the record index),
each NULL when absent. -/
structure EntryObj where
  parent_acl : Option Nat
  entry : Option Nat
deriving DecidableEq, Repr

/-- The Permset_Object structure: the strong reference to the parent
entry's record index, the acl_permset_t (the record index the bits live
at), and the object identity distinguishing separately created view
objects. -/
structure PermsetObj where
  pid : Nat
  parent_entry : Option Nat
  permset : Option Nat
deriving DecidableEq, Repr

/- ========== backend per-entry primitives (spec-modelled) ========== -/

/-- Modelled from the spec: the backend per-entry delete primitive
(acl_delete_entry), missing from the repository — removes the record the
entry designates from the handle, failing with EINVAL when the entry
does not designate a live record of this very ACL (libacl checks the
entry's container). -/
def acl_delete_entry (oid : Nat) (h : AclHandle) (e : EntryObj) :
    Except Nat AclHandle :=
  match e.parent_acl, e.entry with
  | some own, some i =>
    if own = oid ∧ i < h.length then .ok (h.eraseIdx i) else .error EINVAL
  | _, _ => .error EINVAL

/-- Modelled from the spec: the backend get-tag primitive
(acl_get_tag_type), missing from the repository — fails with EINVAL on a
NULL or dead entry reference. -/
def acl_get_tag_type (h : AclHandle) (e : Option Nat) : Except Nat Tag :=
  match e with
  | none => .error EINVAL
  | some i =>
    match h.get? i with
    | some r => .ok r.tag
    | none => .error EINVAL

/-- Modelled from the spec: the backend set-tag primitive
(acl_set_tag_type), missing from the repository — fails with EINVAL on a
NULL or dead entry reference or an integer that is no tag constant;
otherwise stores the tag in place. -/
def acl_set_tag_type (h : AclHandle) (e : Option Nat) (c : Int) :
    Except Nat AclHandle :=
  match e with
  | none => .error EINVAL
  | some i =>
    if i < h.length then
      match tagOfCode c with
      | some t => .ok (setAt h i (fun r => { r with tag := t }))
      | none => .error EINVAL
    else .error EINVAL

/-- Modelled from the spec: the backend get-qualifier primitive
(acl_get_qualifier), missing from the repository — returns the numeric
id, failing (NULL in C) when the reference is NULL or dead or the tag is
neither USER nor GROUP (no qualifier is set). -/
def acl_get_qualifier (h : AclHandle) (e : Option Nat) : Except Nat Nat :=
  match e with
  | none => .error EINVAL
  | some i =>
    match h.get? i with
    | some r =>
      if r.tag = .user ∨ r.tag = .group then .ok r.qualifier
      else .error EINVAL
    | none => .error EINVAL

/-- Modelled from the spec: the backend get-permset primitive
(acl_get_permset), missing from the repository — yields the permset
reference of the entry (here: the same record index), failing with
EINVAL on a NULL or dead reference. -/
def acl_get_permset (h : AclHandle) (e : Option Nat) : Except Nat Nat :=
  match e with
  | none => .error EINVAL
  | some i => if i < h.length then .ok i else .error EINVAL

/-- Modelled from the spec: the backend permission-bit read primitive
(get_perm, from the OS layer file the build includes), missing from the
repository. -/
def get_perm (h : AclHandle) (ps : Option Nat) (q : Perm) : Bool :=
  match ps with
  | none => false
  | some i =>
    match h.get? i with
    | some r => r.perms.getBit q
    | none => false

/-- Modelled from the spec: the backend add-permission primitive
(acl_add_perm), missing from the repository — sets the bit in place,
failing with EINVAL on a NULL or dead permset reference. -/
def acl_add_perm (h : AclHandle) (ps : Option Nat) (q : Perm) :
    Except Nat AclHandle :=
  match ps with
  | none => .error EINVAL
  | some i =>
    if i < h.length then
      .ok (setAt h i (fun r => { r with perms := r.perms.setBit q true }))
    else .error EINVAL

/-- Modelled from the spec: the backend remove-permission primitive
(acl_delete_perm), missing from the repository — clears the bit in
place, failing with EINVAL on a NULL or dead permset reference. -/
def acl_delete_perm (h : AclHandle) (ps : Option Nat) (q : Perm) :
    Except Nat AclHandle :=
  match ps with
  | none => .error EINVAL
  | some i =>
    if i < h.length then
      .ok (setAt h i (fun r => { r with perms := r.perms.setBit q false }))
    else .error EINVAL

/-- Modelled from the spec: the backend entry-copy primitive
(acl_copy_entry), missing from the repository — copies tag, qualifier
and permission bits of the source record (possibly of another ACL's
handle) over the destination record, failing with EINVAL on a NULL or
dead reference on either side. -/
def acl_copy_entry (h hsrc : AclHandle) (dst src : Option Nat) :
    Except Nat AclHandle :=
  match dst, src with
  | some i, some j =>
    match hsrc.get? j with
    | some r =>
      if i < h.length then .ok (setAt h i (fun _ => r)) else .error EINVAL
    | none => .error EINVAL
  | _, _ => .error EINVAL



/- ===================== wrapper translations =====================
Each definition below translates the C function of the same name from
src/acl.c. -/

/-- The mutually exclusive construction sources of ACL_init (the kwlist
file, fd, text, acl, filedef, or no argument at all). -/
inductive InitKw where
  | file (p : String)
  | fd (n : Int)
  | text (t : String)
  | aclSrc (src : ACLObj)
  | filedef (p : String)
  | noArg

/-- The argument situation ACL_init faces after CPython parsing: more
than one keyword (rejected up front) or a single source. -/
inductive InitArgs where
  | tooMany
  | one (kw : InitKw)

/-- Modelled from the spec: the backend acquisition primitives used by
ACL_init (acl_get_file, acl_get_fd, acl_from_text), missing from the
repository; their outcome depends on the OS, so they are parameters. -/
structure Backend where
  acl_get_file_access : String → Except Nat AclHandle
  acl_get_file_default : String → Except Nat AclHandle
  acl_get_fd : Int → Except Nat AclHandle
  acl_from_text : String → Except Nat AclHandle

/-- The handle acquisition performed by the source-selection chain of
ACL_init: acl_get_file, acl_from_text, acl_get_fd, acl_dup (of a
possibly NULL source handle), acl_get_file with ACL_TYPE_DEFAULT, or
acl_init(0) (a fresh empty handle) when no source is given. -/
def aclAcquire (bk : Backend) (kw : InitKw) : Except Nat AclHandle :=
  match kw with
  | .file p => bk.acl_get_file_access p
  | .text t => bk.acl_from_text t
  | .fd n => bk.acl_get_fd n
  | .aclSrc src =>
    match src.acl with
    | some h => .ok h
    | none => .error EINVAL
  | .filedef p => bk.acl_get_file_default p
  | .noArg => .ok []

/-- ACL_init from src/acl.c: reject multiple keyword arguments with
ValueError; otherwise free the old handle without checking for error,
acquire a handle from the selected source, and store it; a failed
acquisition leaves the object's acl field NULL and raises IOError.
Returns the init result, the object state afterwards, and the list of
handles released during the call. -/
def ACL_init (bk : Backend) (s : ACLObj) (args : InitArgs) :
    Except PyErr Unit × ACLObj × List AclHandle :=
  match args with
  | .tooMany =>
    (.error (.valueError "a max of one keyword argument must be passed"),
      s, [])
  | .one kw =>
    let freed := s.acl.toList
    match aclAcquire bk kw with
    | .ok hnew => (.ok (), { s with acl := some hnew }, freed)
    | .error en => (.error (.ioError en), { s with acl := none }, freed)

/-- The CPython per-thread error state: the error indicator (the
exception in flight, if any) and the number of unraisable-error reports
written out-of-band (PyErr_WriteUnraisable). -/
structure PyState where
  err : Option PyErr
  unraisable : Nat
deriving DecidableEq, Repr

/-- PyErr_WriteUnraisable: report the pending error out-of-band (best
effort) and clear the error indicator. -/
def PyErr_WriteUnraisable (ps : PyState) : PyState :=
  ⟨none, ps.unraisable + 1⟩

/-- True when an Except result is the error case. -/
def isErrExc : Except Nat Unit → Bool
  | .error _ => true
  | .ok _ => false

/-- ACL_dealloc from src/acl.c: if an error is already in flight, fetch
it (clearing the indicator); release the handle if present, reporting a
release failure via PyErr_WriteUnraisable; then restore the fetched
error.  The outcome of the acl_free call is passed explicitly so the
failure path is covered. -/
def ACL_dealloc (s : ACLObj) (ps : PyState) (freeRes : Except Nat Unit) :
    PyState :=
  let have_error := ps.err.isSome
  let fetched := ps.err
  let ps1 := if have_error then { ps with err := none } else ps
  let ps2 :=
    if s.acl.isSome && isErrExc freeRes then PyErr_WriteUnraisable ps1
    else ps1
  if have_error then { ps2 with err := fetched } else ps2

/-- Entry_dealloc from src/acl.c: the same fetch/restore bracket around
dropping the strong reference to the parent ACL (Py_DECREF, which
cannot itself fail). -/
def Entry_dealloc (_e : EntryObj) (ps : PyState) : PyState :=
  let have_error := ps.err.isSome
  let fetched := ps.err
  let ps1 := if have_error then { ps with err := none } else ps
  if have_error then { ps1 with err := fetched } else ps1

/-- ACL_str from src/acl.c: render the handle with acl_to_text,
raising IOError on failure (including the NULL-handle case, where the
backend call fails with EINVAL). -/
def ACL_str (s : ACLObj) : Except PyErr String :=
  match s.acl with
  | none => .error (.ioError EINVAL)
  | some h =>
    match acl_to_text h with
    | none => .error (.ioError EINVAL)
    | some t => .ok t

/-- ACL_valid from src/acl.c: True exactly when the backend validity
primitive accepts the handle (a NULL handle is rejected); a single
boolean, no diagnostic. -/
def ACL_valid (s : ACLObj) : Bool :=
  match s.acl with
  | none => false
  | some h => acl_valid h

/-- ACL_get_state from src/acl.c: size the handle, then copy the opaque
external representation out; IOError on failure (including the
NULL-handle case, where acl_size fails with EINVAL). -/
def ACL_get_state (s : ACLObj) : Except PyErr (List Nat) :=
  match s.acl with
  | none => .error (.ioError EINVAL)
  | some h => .ok (acl_copy_ext h)

/-- ACL_set_state from src/acl.c: import the buffer first (IOError if it
is not a valid external representation, the old handle untouched); then
free the old handle if any (checking the result) and install the new
one.  Returns the new object state and the handles released during the
call. -/
def ACL_set_state (s : ACLObj) (buf : List Nat) :
    Except PyErr (ACLObj × List AclHandle) :=
  match acl_copy_int buf with
  | none => .error (.ioError EINVAL)
  | some ptr =>
    match s.acl with
    | none => .ok ({ s with acl := some ptr }, [])
    | some old =>
      match acl_free old with
      | .error en => .error (.ioError en)
      | .ok _ => .ok ({ s with acl := some ptr }, [old])

/-- ACL_iter from src/acl.c: starting a traversal resets the single
shared cursor to ACL_FIRST_ENTRY and returns the ACL itself as its own
iterator. -/
def ACL_iter (s : ACLObj) : ACLObj :=
  { s with entry_id := .first }

/-- ACL_iternext from src/acl.c: ask the backend for the entry at the
stored cursor, then unconditionally switch entry_id to ACL_NEXT_ENTRY;
a NULL handle raises IOError, exhaustion yields none (StopIteration),
otherwise a fresh Entry view of the yielded record is returned holding a
strong reference to this ACL. -/
def ACL_iternext (s : ACLObj) : Except PyErr (Option EntryObj) × ACLObj :=
  match s.acl with
  | none => (.error (.ioError EINVAL), { s with entry_id := .next })
  | some h =>
    let r := acl_get_entry h s.pos s.entry_id
    let s2 := { s with pos := r.2, entry_id := .next }
    match r.1 with
    | none => (.ok none, s2)
    | some i => (.ok (some ⟨some s.oid, some i⟩), s2)

/-- The argument of ACL_delentry as CPython argument parsing sees it:
an Entry instance, or some other object (rejected with TypeError). -/
inductive DelArg where
  | entry (e : EntryObj)
  | other (v : PyValue)

/-- ACL_delentry from src/acl.c: a non-Entry argument is rejected by
argument parsing with TypeError; otherwise the entry is handed straight
to the backend delete primitive, whose failure (in particular for an
entry of another ACL) is raised as IOError. -/
def ACL_delentry (s : ACLObj) (arg : DelArg) : Except PyErr ACLObj :=
  match arg with
  | .other _ => .error (.typeError "argument 1 must be posix1e.Entry")
  | .entry e =>
    match s.acl with
    | none => .error (.ioError EINVAL)
    | some h =>
      match acl_delete_entry s.oid h e with
      | .error en => .error (.ioError en)
      | .ok h2 => .ok { s with acl := some h2 }

/- ===================== validation: claim-level predicate ===================== -/

/-- The six structural rules of the ValidationEngine as the claim states
them, as a proposition over the entry set: exactly one USER_OBJ, exactly
one GROUP_OBJ, exactly one OTHER, qualifiers pairwise distinct among
USER entries and among GROUP entries, and exactly one MASK entry
whenever any USER or GROUP entry exists, at most one otherwise. -/
def validationRules (h : AclHandle) : Prop :=
  (h.filter (fun r => r.tag = .userObj)).length = 1 ∧
  (h.filter (fun r => r.tag = .groupObj)).length = 1 ∧
  (h.filter (fun r => r.tag = .other)).length = 1 ∧
  List.Pairwise (fun a b => a.qualifier ≠ b.qualifier)
    (h.filter (fun r => r.tag = .user)) ∧
  List.Pairwise (fun a b => a.qualifier ≠ b.qualifier)
    (h.filter (fun r => r.tag = .group)) ∧
  ((∃ r ∈ h, r.tag = .user ∨ r.tag = .group) →
    (h.filter (fun r => r.tag = .mask)).length = 1) ∧
  ((¬ ∃ r ∈ h, r.tag = .user ∨ r.tag = .group) →
    (h.filter (fun r => r.tag = .mask)).length ≤ 1)

lemma qualsUnique_eq_true (l : List Nat) : qualsUnique l = true ↔ l.Nodup := by
  induction l with
  | nil => simp [qualsUnique]
  | cons q qs ih =>
    simp [qualsUnique, List.nodup_cons, ih, List.elem_eq_mem]

lemma qualsUnique_filter (h : AclHandle) (t : Tag) :
    qualsUnique ((h.filter (fun r => r.tag = t)).map Record.qualifier)
      = true ↔
    List.Pairwise (fun a b => a.qualifier ≠ b.qualifier)
      (h.filter (fun r => r.tag = t)) := by
  rw [qualsUnique_eq_true, List.Nodup, List.pairwise_map]

lemma countTag_eq_zero (h : AclHandle) (t : Tag) :
    countTag h t = 0 ↔ ∀ r ∈ h, r.tag ≠ t := by
  simp [countTag, List.length_eq_zero, List.filter_eq_nil_iff]

lemma noUserGroup_iff (h : AclHandle) :
    countTag h .user + countTag h .group = 0 ↔
      ¬ ∃ r ∈ h, r.tag = .user ∨ r.tag = .group := by
  rw [Nat.add_eq_zero, countTag_eq_zero, countTag_eq_zero]
  push_neg
  constructor
  · rintro ⟨hu, hg⟩ r hr
    exact ⟨hu r hr, hg r hr⟩
  · intro hb
    exact ⟨fun r hr => (hb r hr).1, fun r hr => (hb r hr).2⟩

/-- C2: for every ACL holding a handle, the valid method returns True if
and only if the entry set satisfies all six structural rules of the
ValidationEngine; its result is a single boolean (the return type), with
no further diagnostic. -/
theorem ACL_valid_iff_validationRules (s : ACLObj) (h : AclHandle)
    (hs : s.acl = some h) : ACL_valid s = true ↔ validationRules h := by
  have hv : ACL_valid s = acl_valid h := by simp [ACL_valid, hs]
  rw [hv]
  unfold acl_valid validationRules
  simp only [Bool.and_eq_true, decide_eq_true_eq]
  rw [qualsUnique_filter, qualsUnique_filter]
  by_cases hc : countTag h .user + countTag h .group = 0
  · have hne := (noUserGroup_iff h).mp hc
    rw [if_pos hc]
    simp only [countTag, decide_eq_true_eq]
    constructor
    · rintro ⟨⟨⟨⟨⟨a, b⟩, c⟩, d⟩, e⟩, f⟩
      exact ⟨a, b, c, d, e, fun hx => absurd hx hne, fun _ => f⟩
    · rintro ⟨a, b, c, d, e, _, g⟩
      exact ⟨⟨⟨⟨⟨a, b⟩, c⟩, d⟩, e⟩, g hne⟩
  · have hex : ∃ r ∈ h, r.tag = .user ∨ r.tag = .group := by
      by_contra hne
      exact hc ((noUserGroup_iff h).mpr hne)
    rw [if_neg hc]
    simp only [countTag, decide_eq_true_eq]
    constructor
    · rintro ⟨⟨⟨⟨⟨a, b⟩, c⟩, d⟩, e⟩, f⟩
      exact ⟨a, b, c, d, e, fun _ => f, fun hn => absurd hex hn⟩
    · rintro ⟨a, b, c, d, e, f, _⟩
      exact ⟨⟨⟨⟨⟨a, b⟩, c⟩, d⟩, e⟩, f hex⟩

/-- Witness handle: the canonical minimal valid ACL (owner, owning
group, other). -/
def demoHandle : AclHandle :=
  [⟨.userObj, 0, ⟨true, true, true⟩⟩, ⟨.groupObj, 0, ⟨true, false, true⟩⟩,
    ⟨.other, 0, ⟨false, false, true⟩⟩]

/-- Witness for C2 at the canonical three-entry ACL. -/
theorem ACL_valid_iff_validationRules_witness :
    (mkACL 1 demoHandle).acl = some demoHandle ∧
      (ACL_valid (mkACL 1 demoHandle) = true ↔ validationRules demoHandle) :=
  ⟨rfl, ACL_valid_iff_validationRules (mkACL 1 demoHandle) demoHandle rfl⟩

/- ===================== serialization round trip ===================== -/

lemma tagOfCode_toNat (t : Tag) :
    tagOfCode (Int.ofNat (tagCode t).toNat) = some t := by
  cases t <;> rfl

lemma permOfCode_permCode (p : Perms) : permOfCode (permCode p) = some p := by
  rcases p with ⟨r, w, x⟩
  cases r <;> cases w <;> cases x <;> decide

lemma acl_copy_int_copy_ext (h : AclHandle) :
    acl_copy_int (acl_copy_ext h) = some h := by
  induction h with
  | nil => rfl
  | cons r rs ih =>
    simp only [acl_copy_ext, acl_copy_int]
    rw [tagOfCode_toNat, permOfCode_permCode, ih]

/-- C1: for every valid ACL, exporting its state and importing the
buffer back succeeds and yields an ACL whose text rendering equals the
original's. -/
theorem serialization_roundtrip (s : ACLObj) (h : AclHandle)
    (hs : s.acl = some h) (hv : ACL_valid s = true) :
    ∃ buf s2 freed, ACL_get_state s = .ok buf ∧
      ACL_set_state s buf = .ok (s2, freed) ∧ ACL_str s2 = ACL_str s := by
  have heq : ({ s with acl := some h } : ACLObj) = s := by
    cases s
    simp only at hs
    simp [hs]
  refine ⟨acl_copy_ext h, { s with acl := some h }, [h], ?_, ?_, ?_⟩
  · simp [ACL_get_state, hs]
  · simp [ACL_set_state, acl_copy_int_copy_ext, hs, acl_free]
  · rw [heq]

/-- Witness for C1 at the canonical three-entry ACL. -/
theorem serialization_roundtrip_witness :
    ACL_valid (mkACL 1 demoHandle) = true ∧
      ∃ buf s2 freed, ACL_get_state (mkACL 1 demoHandle) = .ok buf ∧
        ACL_set_state (mkACL 1 demoHandle) buf = .ok (s2, freed) ∧
        ACL_str s2 = ACL_str (mkACL 1 demoHandle) :=
  ⟨by decide, serialization_roundtrip (mkACL 1 demoHandle) demoHandle rfl
    (by decide)⟩

/- ===================== iteration protocol ===================== -/

/-- The Entry view ACL_iternext builds for the record at a given index:
a strong reference to the owning ACL and the backend entry reference. -/
def entryView (oid : Nat) (i : Nat) : EntryObj :=
  ⟨some oid, some i⟩

/-- Drive the iteration protocol: call ACL_iternext up to fuel times,
collecting the yielded Entry views until exhaustion or an error;
returns the views in order and the final object state. -/
def iterCollect : Nat → ACLObj → List EntryObj × ACLObj
  | 0, s => ([], s)
  | fuel + 1, s =>
    match ACL_iternext s with
    | (.error _, s2) => ([], s2)
    | (.ok none, s2) => ([], s2)
    | (.ok (some e), s2) =>
      let rest := iterCollect fuel s2
      (e :: rest.1, rest.2)

lemma iterCollect_next (h : AclHandle) (oid : Nat) :
    ∀ (m k fuel : Nat), k + m = h.length → m < fuel →
      iterCollect fuel ⟨oid, some h, k, .next⟩ =
        ((List.range' k m).map (entryView oid),
          ⟨oid, some h, h.length, .next⟩) := by
  intro m
  induction m with
  | zero =>
    intro k fuel hk hf
    obtain ⟨f, rfl⟩ : ∃ f, fuel = f + 1 := by
      cases fuel with
      | zero => omega
      | succ f => exact ⟨f, rfl⟩
    have hkl : k = h.length := by omega
    have hnot : ¬ k < h.length := by omega
    simp [iterCollect, ACL_iternext, acl_get_entry, hnot, hkl, List.range']
  | succ m ih =>
    intro k fuel hk hf
    obtain ⟨f, rfl⟩ : ∃ f, fuel = f + 1 := by
      cases fuel with
      | zero => omega
      | succ f => exact ⟨f, rfl⟩
    have hlt : k < h.length := by omega
    have ihk := ih (k + 1) f (by omega) (by omega)
    simp [iterCollect, ACL_iternext, acl_get_entry, hlt, ihk, List.range',
      entryView]

lemma iterCollect_first (h : AclHandle) (oid p fuel : Nat) :
    iterCollect (fuel + 1) ⟨oid, some h, p, .first⟩ =
      iterCollect (fuel + 1) ⟨oid, some h, 0, .next⟩ := by
  by_cases h0 : 0 < h.length <;>
    simp [iterCollect, ACL_iternext, acl_get_entry, h0]

/-- C3: starting a traversal on an ACL holding an N-entry handle —
whatever the current cursor state, since ACL_iter resets the single
shared cursor to the start — yields exactly the N Entry views in handle
order, after which the next call reports exhaustion; starting a second
traversal afterwards (absent intervening mutation) yields the same N
entries in the same order. -/
theorem iteration_exhaustion (s : ACLObj) (h : AclHandle)
    (hs : s.acl = some h) :
    (iterCollect (h.length + 1) (ACL_iter s)).1 =
      (List.range' 0 h.length).map (entryView s.oid) ∧
    (ACL_iternext (iterCollect (h.length + 1) (ACL_iter s)).2).1 =
      .ok none ∧
    (iterCollect (h.length + 1)
        (ACL_iter (iterCollect (h.length + 1) (ACL_iter s)).2)).1 =
      (List.range' 0 h.length).map (entryView s.oid) := by
  obtain ⟨oid, acl, pos, eid⟩ := s
  simp only at hs
  subst hs
  have hrun : ∀ p : Nat,
      iterCollect (h.length + 1) (ACL_iter ⟨oid, some h, p, eid⟩) =
        ((List.range' 0 h.length).map (entryView oid),
          ⟨oid, some h, h.length, .next⟩) := by
    intro p
    have : ACL_iter ⟨oid, some h, p, eid⟩ = ⟨oid, some h, p, .first⟩ := rfl
    rw [this, iterCollect_first h oid p h.length,
      iterCollect_next h oid h.length 0 (h.length + 1) (by omega) (by omega)]
  have hrun2 : ∀ p eid2,
      iterCollect (h.length + 1) (ACL_iter (⟨oid, some h, p, eid2⟩ : ACLObj)) =
        ((List.range' 0 h.length).map (entryView oid),
          ⟨oid, some h, h.length, .next⟩) := by
    intro p eid2
    have : ACL_iter ⟨oid, some h, p, eid2⟩ = ⟨oid, some h, p, .first⟩ := rfl
    rw [this, iterCollect_first h oid p h.length,
      iterCollect_next h oid h.length 0 (h.length + 1) (by omega) (by omega)]
  refine ⟨by rw [hrun pos], ?_, ?_⟩
  · rw [hrun pos]
    have hnot : ¬ h.length < h.length := by omega
    simp [ACL_iternext, acl_get_entry, hnot]
  · rw [hrun pos]
    rw [hrun2 h.length .next]

/-- Witness for C3: a two-entry ACL whose cursor sits mid-iteration;
the traversal still yields both entries, terminates, and restarts
identically. -/
theorem iteration_exhaustion_witness :
    ((⟨7, some demoHandle, 1, .next⟩ : ACLObj).acl = some demoHandle) ∧
      ((iterCollect (demoHandle.length + 1)
          (ACL_iter ⟨7, some demoHandle, 1, .next⟩)).1 =
        (List.range' 0 demoHandle.length).map (entryView 7) ∧
      (ACL_iternext (iterCollect (demoHandle.length + 1)
          (ACL_iter ⟨7, some demoHandle, 1, .next⟩)).2).1 = .ok none ∧
      (iterCollect (demoHandle.length + 1)
          (ACL_iter (iterCollect (demoHandle.length + 1)
            (ACL_iter ⟨7, some demoHandle, 1, .next⟩)).2)).1 =
        (List.range' 0 demoHandle.length).map (entryView 7)) :=
  ⟨rfl, iteration_exhaustion ⟨7, some demoHandle, 1, .next⟩ demoHandle rfl⟩

/- ============== Entry and Permset wrapper translations ============== -/

/-- The per-tag description Entry_str interpolates into
"ACL entry for %s". -/
def entryDesc (t : Tag) (q : Nat) : String :=
  match t with
  | .undefined => "undefined type"
  | .userObj => "the owner"
  | .groupObj => "the group"
  | .other => "the others"
  | .user => "user with uid " ++ toString q
  | .group => "group with gid " ++ toString q
  | .mask => "the mask"

/-- Entry_str from src/acl.c: read the tag type (no NULL check on the
entry — the possibly NULL reference goes straight to the backend, and a
backend failure is raised as IOError), fetch the qualifier only for USER
and GROUP tags, and format the description line. -/
def Entry_str (h : AclHandle) (e : EntryObj) : Except PyErr String :=
  match acl_get_tag_type h e.entry with
  | .error en => .error (.ioError en)
  | .ok t =>
    if t = .user ∨ t = .group then
      match acl_get_qualifier h e.entry with
      | .error en => .error (.ioError en)
      | .ok q => .ok ("ACL entry for " ++ entryDesc t q)
    else .ok ("ACL entry for " ++ entryDesc t 0)

/-- Entry_set_tag_type from src/acl.c: reject attribute deletion (a NULL
value) and non-integer values with TypeError; any integer is handed
straight to the backend (no NULL check on the entry, no tag-constant
check in the wrapper), and a backend failure is raised as IOError. -/
def Entry_set_tag_type (h : AclHandle) (e : EntryObj)
    (value : Option PyValue) : Except PyErr AclHandle :=
  match value with
  | none => .error (.typeError "tag type deletion is not supported")
  | some (.int n) =>
    match acl_set_tag_type h e.entry n with
    | .error en => .error (.ioError en)
    | .ok h2 => .ok h2
  | some _ => .error (.typeError "tag type must be integer")

/-- Entry_get_tag_type from src/acl.c: a NULL entry reference is caught
by the wrapper itself and raised as AttributeError; otherwise the tag is
read from the backend (IOError on failure) and returned as its integer
constant. -/
def Entry_get_tag_type (h : AclHandle) (e : EntryObj) : Except PyErr Int :=
  match e.entry with
  | none => .error (.attributeError "entry attribute")
  | some i =>
    match acl_get_tag_type h (some i) with
    | .error en => .error (.ioError en)
    | .ok t => .ok (tagCode t)

/-- Entry_get_qualifier from src/acl.c: a NULL entry reference is caught
by the wrapper itself and raised as AttributeError; otherwise the
qualifier is read from the backend (IOError on failure). -/
def Entry_get_qualifier (h : AclHandle) (e : EntryObj) :
    Except PyErr Nat :=
  match e.entry with
  | none => .error (.attributeError "entry attribute")
  | some i =>
    match acl_get_qualifier h (some i) with
    | .error en => .error (.ioError en)
    | .ok q => .ok q

/-- Entry_get_permset from src/acl.c: create a brand-new Permset object
(fresh object identity) and bind it to this entry's permission bits via
the backend lookup (no NULL check on the entry; a backend failure is
raised as IOError). -/
def Entry_get_permset (h : AclHandle) (e : EntryObj) (fresh : Nat) :
    Except PyErr PermsetObj :=
  match acl_get_permset h e.entry with
  | .error en => .error (.ioError en)
  | .ok ref => .ok ⟨fresh, e.entry, some ref⟩

/-- Entry_copy from src/acl.c: hand both entry references (no NULL
checks) to the backend copy primitive, which copies all parameters of
the source record — possibly of another ACL's handle — over the
destination record; a backend failure is raised as IOError. -/
def Entry_copy (h hsrc : AclHandle) (e other : EntryObj) :
    Except PyErr AclHandle :=
  match acl_copy_entry h hsrc e.entry other.entry with
  | .error en => .error (.ioError en)
  | .ok h2 => .ok h2

/-- Permset_get_right from src/acl.c: read one permission bit through
the view's backend reference. -/
def Permset_get_right (h : AclHandle) (p : PermsetObj) (q : Perm) :
    Bool :=
  get_perm h p.permset q

/-- Permset_set_right from src/acl.c: reject non-integer values with
ValueError (the message the source uses); a nonzero integer adds the bit
via acl_add_perm, zero removes it via acl_delete_perm, in place through
the view's backend reference; backend failures are raised as IOError. -/
def Permset_set_right (h : AclHandle) (p : PermsetObj) (q : Perm)
    (value : PyValue) : Except PyErr AclHandle :=
  match value with
  | .int n =>
    match (if n ≠ 0 then acl_add_perm h p.permset q
      else acl_delete_perm h p.permset q) with
    | .error en => .error (.ioError en)
    | .ok h2 => .ok h2
  | _ => .error (.valueError "a maximum of one argument must be passed")

/- ===================== C4: DeleteEntry ===================== -/

/-- Counterexample to C4 as stated: an Entry belonging to ACL instance 2
passed to instance 1's delentry fails with IOError (BackendError, errno
EINVAL from the backend delete primitive), not with an
InvalidArgument-class error (TypeError/ValueError). -/
theorem ACL_delentry_claim_counterexample :
    ACL_delentry (mkACL 1 demoHandle) (.entry ⟨some 2, some 0⟩) =
      .error (.ioError 22) ∧
    isInvalidArgument (.ioError 22) = false := by
  constructor
  · rfl
  · rfl

/-- C4 amended: delentry raises an InvalidArgument-class error
(TypeError) only when the argument is not an Entry object at all; an
Entry that does not belong to this ACL is handed to the backend, whose
rejection surfaces as IOError (BackendError), not InvalidArgument; an
Entry that does belong has its record removed from the handle. -/
theorem ACL_delentry_amended (s : ACLObj) (h : AclHandle)
    (hs : s.acl = some h) (own i j : Nat) (hfor : own ≠ s.oid)
    (hj : j < h.length) (v : PyValue) :
    ACL_delentry s (.entry ⟨some own, some i⟩) =
      .error (.ioError EINVAL) ∧
    isInvalidArgument (.ioError EINVAL) = false ∧
    ACL_delentry s (.entry ⟨some s.oid, some j⟩) =
      .ok { s with acl := some (h.eraseIdx j) } ∧
    (∃ msg, ACL_delentry s (.other v) = .error (.typeError msg)) := by
  refine ⟨?_, rfl, ?_, ⟨"argument 1 must be posix1e.Entry", rfl⟩⟩
  · have : ¬ (own = s.oid ∧ i < h.length) := fun hc => hfor hc.1
    simp [ACL_delentry, acl_delete_entry, hs, this]
  · simp [ACL_delentry, acl_delete_entry, hs, hj]

/-- Witness for the amended C4: instance 1 holding the demo handle, a
foreign entry of instance 2, and the first entry of instance 1. -/
theorem ACL_delentry_amended_witness :
    ACL_delentry (mkACL 1 demoHandle) (.entry ⟨some 2, some 0⟩) =
      .error (.ioError EINVAL) ∧
    isInvalidArgument (.ioError EINVAL) = false ∧
    ACL_delentry (mkACL 1 demoHandle) (.entry ⟨some 1, some 0⟩) =
      .ok { mkACL 1 demoHandle with acl := some (demoHandle.eraseIdx 0) } ∧
    (∃ msg, ACL_delentry (mkACL 1 demoHandle) (.other .pyNone) =
      .error (.typeError msg)) :=
  ACL_delentry_amended (mkACL 1 demoHandle) demoHandle rfl 2 0 0
    (by decide) (by decide) .pyNone

/- ===================== C5: permset view sharing ===================== -/

lemma setAt_get_self :
    ∀ (h : List Record) (i : Nat) (f : Record → Record), i < h.length →
      (setAt h i f).get? i = (h.get? i).map f := by
  intro h
  induction h with
  | nil => intro i f hi; simp at hi
  | cons r rs ih =>
    intro i f hi
    cases i with
    | zero => rfl
    | succ n =>
      simp only [setAt, List.get?]
      exact ih n f (by simpa using hi)

lemma getBit_setBit_self (p : Perms) (q : Perm) (v : Bool) :
    (p.setBit q v).getBit q = v := by
  cases q <;> simp [Perms.setBit, Perms.getBit]

lemma get_perm_setAt (h : AclHandle) (i : Nat) (q : Perm)
    (hi : i < h.length) :
    get_perm (setAt h i (fun r => { r with perms := r.perms.setBit q true }))
      (some i) q = true := by
  show (match (setAt h i
      (fun r => { r with perms := r.perms.setBit q true })).get? i with
    | some r => r.perms.getBit q
    | none => false) = true
  rw [setAt_get_self h i _ hi]
  cases hg : h.get? i with
  | none =>
    rw [List.get?_eq_none] at hg
    omega
  | some r => simp [getBit_setBit_self]

/-- C5: two separately obtained Permset views of one Entry are distinct
view objects bound to the same underlying permission bits, and setting
WRITE through either view is observable through the other. -/
theorem permset_view_sharing (h : AclHandle) (e : EntryObj) (i n1 n2 : Nat)
    (he : e.entry = some i) (hi : i < h.length) (hn : n1 ≠ n2) :
    ∃ p1 p2, Entry_get_permset h e n1 = .ok p1 ∧
      Entry_get_permset h e n2 = .ok p2 ∧
      p1 ≠ p2 ∧ p1.permset = p2.permset ∧
      (∀ h2, Permset_set_right h p1 .write (.int 1) = .ok h2 →
        Permset_get_right h2 p2 .write = true) ∧
      (∀ h2, Permset_set_right h p2 .write (.int 1) = .ok h2 →
        Permset_get_right h2 p1 .write = true) := by
  refine ⟨⟨n1, e.entry, some i⟩, ⟨n2, e.entry, some i⟩, ?_, ?_, ?_, rfl,
    ?_, ?_⟩
  · simp [Entry_get_permset, acl_get_permset, he, hi]
  · simp [Entry_get_permset, acl_get_permset, he, hi]
  · intro hc
    exact hn (congrArg PermsetObj.pid hc)
  · intro h2 hset
    have : h2 = setAt h i
        (fun r => { r with perms := r.perms.setBit .write true }) := by
      simp [Permset_set_right, acl_add_perm, hi] at hset
      exact hset.symm
    rw [this]
    exact get_perm_setAt h i .write hi
  · intro h2 hset
    have : h2 = setAt h i
        (fun r => { r with perms := r.perms.setBit .write true }) := by
      simp [Permset_set_right, acl_add_perm, hi] at hset
      exact hset.symm
    rw [this]
    exact get_perm_setAt h i .write hi

/-- Witness for C5 at the first entry of the demo handle, with view
identities 0 and 1. -/
theorem permset_view_sharing_witness :
    ∃ p1 p2,
      Entry_get_permset demoHandle ⟨some 1, some 0⟩ 0 = .ok p1 ∧
      Entry_get_permset demoHandle ⟨some 1, some 0⟩ 1 = .ok p2 ∧
      p1 ≠ p2 ∧ p1.permset = p2.permset ∧
      (∀ h2, Permset_set_right demoHandle p1 .write (.int 1) = .ok h2 →
        Permset_get_right h2 p2 .write = true) ∧
      (∀ h2, Permset_set_right demoHandle p2 .write (.int 1) = .ok h2 →
        Permset_get_right h2 p1 .write = true) :=
  permset_view_sharing demoHandle ⟨some 1, some 0⟩ 0 0 1 rfl (by decide)
    (by decide)

/- ===================== C6: setting the tag type ===================== -/

/-- Counterexample to C6 as stated: the integer 999 is not a recognized
tag type, yet setting it raises IOError (BackendError, from the
backend's rejection), not an InvalidArgument-class error — the wrapper
only type-checks that the value is an integer. -/
theorem Entry_set_tag_type_claim_counterexample :
    Entry_set_tag_type demoHandle ⟨some 1, some 0⟩ (some (.int 999)) =
      .error (.ioError 22) ∧
    isInvalidArgument (.ioError 22) = false := by
  constructor
  · rfl
  · rfl

/-- C6 amended: setting the tag type fails with an
InvalidArgument-class TypeError exactly when the supplied value is not
an integer (including attribute deletion); any integer — recognized tag
constant or not — is passed to the backend, and a backend rejection
(in particular of an integer that is no tag constant) surfaces as
IOError (BackendError). -/
theorem Entry_set_tag_type_amended (h : AclHandle) (e : EntryObj)
    (str0 : String) (c : Int) (hc : tagOfCode c = none) :
    Entry_set_tag_type h e (some (.str str0)) =
      .error (.typeError "tag type must be integer") ∧
    Entry_set_tag_type h e none =
      .error (.typeError "tag type deletion is not supported") ∧
    Entry_set_tag_type h e (some (.int c)) = .error (.ioError EINVAL) ∧
    isInvalidArgument (.ioError EINVAL) = false := by
  refine ⟨rfl, rfl, ?_, rfl⟩
  unfold Entry_set_tag_type acl_set_tag_type
  cases e.entry with
  | none => rfl
  | some i =>
    by_cases hi : i < h.length
    · simp [hi, hc]
    · simp [hi]

/-- Witness for the amended C6: a live first entry of the demo handle
and the unrecognized integer 999. -/
theorem Entry_set_tag_type_amended_witness :
    Entry_set_tag_type demoHandle ⟨some 1, some 0⟩ (some (.str "u")) =
      .error (.typeError "tag type must be integer") ∧
    Entry_set_tag_type demoHandle ⟨some 1, some 0⟩ none =
      .error (.typeError "tag type deletion is not supported") ∧
    Entry_set_tag_type demoHandle ⟨some 1, some 0⟩ (some (.int 999)) =
      .error (.ioError EINVAL) ∧
    isInvalidArgument (.ioError EINVAL) = false :=
  Entry_set_tag_type_amended demoHandle ⟨some 1, some 0⟩ "u" 999
    (by decide)

/- ===================== C7: ImportState ===================== -/

/-- C7: setting the state from a byte buffer that is not a valid
exported representation fails with IOError (BackendError) and — the
call producing no new object state — leaves the ACL's handle untouched;
on a valid buffer the ACL ends up holding exactly the reconstructed
handle and the handles released during the call are exactly the prior
one (released before the new handle is installed in the resulting
state), so the instance holds at most one live handle throughout. -/
theorem ACL_set_state_spec (s : ACLObj) (buf : List Nat) :
    ACL_set_state s buf =
      (match acl_copy_int buf with
      | none => .error (.ioError EINVAL)
      | some ptr => .ok ({ s with acl := some ptr }, s.acl.toList)) := by
  unfold ACL_set_state
  cases acl_copy_int buf with
  | none => rfl
  | some ptr =>
    cases hs : s.acl with
    | none => simp
    | some old => simp [acl_free]

/- ===================== C8: teardown and in-flight errors ========== -/

/-- C8: deallocating an ACL or an Entry never clobbers an error already
in flight — the error indicator after deallocation equals the one
before — and a failure of the handle release during ACL deallocation is
reported out-of-band as exactly one unraisable-error report (rather
than propagated), while a successful release reports nothing. -/
theorem dealloc_preserves_error (s : ACLObj) (ps : PyState)
    (fr : Except Nat Unit) (e : EntryObj) :
    (ACL_dealloc s ps fr).err = ps.err ∧
    (Entry_dealloc e ps).err = ps.err ∧
    (ACL_dealloc s ps fr).unraisable =
      ps.unraisable + (if s.acl.isSome && isErrExc fr then 1 else 0) := by
  unfold ACL_dealloc Entry_dealloc PyErr_WriteUnraisable
  cases hb : s.acl.isSome && isErrExc fr <;>
    cases he : ps.err <;> simp [he]

/- ===================== C9: re-initialization ===================== -/

/-- C9: re-running initialization on an ACL that already holds a handle
releases the old handle unconditionally — the handles released during
the call are exactly the previously held ones, whether or not
acquisition succeeds — and when acquiring the new handle fails the call
raises IOError (BackendError) and leaves the ACL holding no handle at
all: initialization is not atomic and the prior handle is not restored
on error. -/
theorem ACL_init_not_atomic (bk : Backend) (s : ACLObj) (kw : InitKw) :
    (ACL_init bk s (.one kw)).2.2 = s.acl.toList ∧
    (ACL_init bk s (.one kw)).2.1.acl =
      (match aclAcquire bk kw with
      | .ok hnew => some hnew
      | .error _ => none) ∧
    (ACL_init bk s (.one kw)).1 =
      (match aclAcquire bk kw with
      | .ok _ => .ok ()
      | .error en => .error (.ioError en)) := by
  unfold ACL_init
  cases hA : aclAcquire bk kw <;> simp [hA]

/- ===================== C10: missing NULL-entry checks ============= -/

/-- True exactly for the error the spec calls UninitializedState
(AttributeError). -/
def isUninitializedState : PyErr → Bool
  | .attributeError _ => true
  | _ => false

/-- C10: on an Entry holding no backend record, only the tag-type and
qualifier getters detect the absence themselves and raise
AttributeError (UninitializedState); the tag-type setter, the text
rendering, the permset accessor and the copy operation perform no such
check and hand the NULL reference straight to the backend, whose
EINVAL rejection surfaces as IOError (BackendError) — never as
UninitializedState. -/
theorem uninitialized_entry_checks (h hsrc : AclHandle) (e other : EntryObj)
    (he : e.entry = none) (c : Int) (fresh : Nat) :
    Entry_get_tag_type h e = .error (.attributeError "entry attribute") ∧
    Entry_get_qualifier h e = .error (.attributeError "entry attribute") ∧
    Entry_set_tag_type h e (some (.int c)) = .error (.ioError EINVAL) ∧
    Entry_str h e = .error (.ioError EINVAL) ∧
    Entry_get_permset h e fresh = .error (.ioError EINVAL) ∧
    Entry_copy h hsrc e other = .error (.ioError EINVAL) ∧
    isUninitializedState (.ioError EINVAL) = false := by
  refine ⟨?_, ?_, ?_, ?_, ?_, ?_, rfl⟩
  · simp [Entry_get_tag_type, he]
  · simp [Entry_get_qualifier, he]
  · simp [Entry_set_tag_type, acl_set_tag_type, he]
  · simp [Entry_str, acl_get_tag_type, he]
  · simp [Entry_get_permset, acl_get_permset, he]
  · simp [Entry_copy, acl_copy_entry, he]

/-- Witness for C10: a default-constructed (never initialized) Entry
against the demo handle. -/
theorem uninitialized_entry_checks_witness :
    Entry_get_tag_type demoHandle ⟨none, none⟩ =
      .error (.attributeError "entry attribute") ∧
    Entry_get_qualifier demoHandle ⟨none, none⟩ =
      .error (.attributeError "entry attribute") ∧
    Entry_set_tag_type demoHandle ⟨none, none⟩ (some (.int 1)) =
      .error (.ioError EINVAL) ∧
    Entry_str demoHandle ⟨none, none⟩ = .error (.ioError EINVAL) ∧
    Entry_get_permset demoHandle ⟨none, none⟩ 0 =
      .error (.ioError EINVAL) ∧
    Entry_copy demoHandle demoHandle ⟨none, none⟩ ⟨some 1, some 0⟩ =
      .error (.ioError EINVAL) ∧
    isUninitializedState (.ioError EINVAL) = false :=
  uninitialized_entry_checks demoHandle demoHandle ⟨none, none⟩
    ⟨some 1, some 0⟩ rfl 1 0
